import Mathlib

/-!
# Verification of the `encrypt` pipeline (src/encrypt.py)

A shallow embedding of the single-request encryption pipeline: given a
`conf_path` request parameter, the endpoint parses it into a bucket and an
object key, fetches a JSON configuration object, resolves three secrets,
reads a source blob, encrypts it with GPG, and writes the armored ciphertext
back to storage.

Python strings are modelled as `List Char`.  External collaborators (the
request arguments, Google Cloud Storage, Secret Manager, the `json` module
and the GPG engine) are modelled as an `Oracle` of functions; each external
call is recorded in a trace of `Event`s so that ordering and at-most-once
properties can be stated.  Fallible Python operations return `Res`, whose
`exc` constructor carries the exception text.
-/

set_option autoImplicit false

namespace EncryptPy

/-- Python strings are modelled as lists of characters. -/
abbrev PyStr := List Char

/-- Embeds a Lean string literal as a `PyStr`. -/
def lit (s : String) : PyStr := s.data

/-- Result of a fallible Python operation: a value, or a raised exception
carrying its message text. -/
inductive Res (α : Type) where
  | ok (a : α)
  | exc (msg : PyStr)
deriving DecidableEq, Repr

/-- A JSON value as far as the pipeline observes it: the configuration
fields are strings, and `null` is distinguished because the code never
checks for it.  (Other JSON shapes are irrelevant to the claims.) -/
inductive JVal where
  | jnull
  | jstr (s : PyStr)
deriving DecidableEq, Repr

/-- A parsed JSON object (`json.loads` result): an association list from
keys to values. -/
abbrev Json := List (PyStr × JVal)

/-- Python dictionary subscription `conf[k]`: the value, or a `KeyError`. -/
def jget (conf : Json) (k : PyStr) : Res JVal :=
  match conf.lookup k with
  | some v => .ok v
  | none => .exc (lit "KeyError: " ++ k)

/-- Python f-string conversion of a JSON value (`None` prints as "None"). -/
def pyFStr : JVal → PyStr
  | .jnull => lit "None"
  | .jstr s => s

/-- Python `+` on two JSON values: string concatenation when both are
strings, a `TypeError` otherwise (in particular when either is `null`). -/
def pyAdd : JVal → JVal → Res PyStr
  | .jstr a, .jstr b => .ok (a ++ b)
  | _, _ => .exc (lit "TypeError: can only concatenate str to str")

/-- Result object of `gpg.encrypt`: the success flag `ok`, the armored
ciphertext `data` (what `str(encrypted_data)` yields), and the engine's
diagnostic text `stderr`. -/
structure EncRes where
  ok : Bool
  data : PyStr
  stderr : PyStr
deriving DecidableEq, Repr

/-- The external world of one invocation: the request argument and the
deterministic responses of every external service the code calls. -/
structure Oracle where
  /-- `request.args.get('conf_path')`: `none` when the parameter is absent. -/
  getArg : Option PyStr
  /-- `bucket(b).blob(n).download_as_text()` for the configuration object. -/
  confFetch : PyStr → PyStr → Res PyStr
  /-- `json.loads` applied to the configuration text. -/
  jsonLoads : PyStr → Res Json
  /-- `access_secret_version({"name": n})` followed by payload decoding. -/
  secret : PyStr → Res PyStr
  /-- `bucket(b).blob(p).download_as_text()` for the source file. -/
  blobRead : PyStr → PyStr → Res PyStr
  /-- `gpg.import_keys(key)`. -/
  gpgImport : PyStr → Res Unit
  /-- `gpg.encrypt(data, recipients=[r], always_trust=True)` after importing
  `key`; returns the result object. -/
  gpgEncrypt : PyStr → PyStr → PyStr → EncRes
  /-- `bucket(b).blob(p).upload_from_string(payload)`. -/
  blobWrite : PyStr → PyStr → PyStr → Res Unit

/-- One attempted external call, recorded in program order. -/
inductive Event where
  | confRead (bucket name : PyStr)
  | secretFetch (name : PyStr)
  | blobRead (bucket path : PyStr)
  | keyImport (key : PyStr)
  | encRun (recipient : PyStr)
  | blobWrite (bucket path payload : PyStr)
deriving DecidableEq, Repr

/-- Python `s.split("/")` (split on a single-character separator). -/
def pySplitSlash : PyStr → List PyStr
  | [] => [[]]
  | c :: cs =>
    if c = '/' then [] :: pySplitSlash cs
    else
      match pySplitSlash cs with
      | [] => [[c]]
      | t :: ts => (c :: t) :: ts

/-- Python `s.split(sep, 1)` for nonempty `sep`, reported as the pieces
before and after the first occurrence of `sep`; `none` when `sep` does not
occur (Python would return a one-element list, so indexing `[1]` raises). -/
def pySplit1 (sep : PyStr) : PyStr → Option (PyStr × PyStr)
  | [] => none
  | c :: cs =>
    if sep.isPrefixOf (c :: cs) then some ([], List.drop sep.length (c :: cs))
    else
      match pySplit1 sep cs with
      | some (before, after) => some (c :: before, after)
      | none => none

/-- Path parsing, lines 88-91 of `src/encrypt.py`:
`bucket_name = conf_path.split("/")[2]` and
`conf_file_name = conf_path.split(bucket_name, 1)[1].lstrip('/')`, with each
possible exception carried into `exc` (`AttributeError` when the parameter
is absent, `IndexError` when an index is out of range, `ValueError` when the
third segment is empty so `split` gets an empty separator). -/
def parse_path (conf_path : Option PyStr) : Res (PyStr × PyStr) :=
  match conf_path with
  | none => .exc (lit "AttributeError: NoneType object has no attribute split")
  | some p =>
    match (pySplitSlash p)[2]? with
    | none => .exc (lit "IndexError: list index out of range")
    | some bucket_name =>
      if bucket_name = [] then .exc (lit "ValueError: empty separator")
      else
        match pySplit1 bucket_name p with
        | none => .exc (lit "IndexError: list index out of range")
        | some (_, after) => .ok (bucket_name, after.dropWhile (fun c => c = '/'))

/-- Name of the accessed secret version, from `fetch_secret`:
`f"{secret_id}/versions/latest"`. -/
def secret_name (secret_id : JVal) : PyStr := pyFStr secret_id ++ lit "/versions/latest"

/-- `fetch_secret` (lines 15-28): a single access attempt against Secret
Manager, returning the decoded payload or re-raising the failure.  The call
attempt is recorded by the caller as a `secretFetch (secret_name _)` event. -/
def fetch_secret (o : Oracle) (secret_id : JVal) : Res PyStr :=
  o.secret (secret_name secret_id)

/-- `fetch_conf_details` (lines 30-43): a single download attempt of the
configuration object; the attempt is recorded by the caller as a
`confRead` event. -/
def fetch_conf_details (o : Oracle) (bucket_name conf_file_name : PyStr) : Res PyStr :=
  o.confFetch bucket_name conf_file_name

/-- The values the configuration block (lines 96-104) binds on success:
three resolved secrets and three fields used as-is. -/
structure ConfigVals where
  gpg_public_key : PyStr
  gcs_bucket : PyStr
  recipient_name : PyStr
  file_name : JVal
  file_path : JVal
  encrypted_file_path : JVal
deriving DecidableEq, Repr

/-- The configuration-and-secrets block of `encrypt` (lines 96-104): fetch
the config object, `json.loads` it, and resolve the three secrets while
reading the six fields in source order; any exception aborts the block. -/
def fetch_config_and_secrets (o : Oracle) (bucket_name conf_file_name : PyStr) :
    Res ConfigVals × List Event :=
  match fetch_conf_details o bucket_name conf_file_name with
  | .exc e => (.exc e, [.confRead bucket_name conf_file_name])
  | .ok conf_details =>
    match o.jsonLoads conf_details with
    | .exc e => (.exc e, [.confRead bucket_name conf_file_name])
    | .ok conf =>
      match jget conf (lit "gpg_public_key") with
      | .exc e => (.exc e, [.confRead bucket_name conf_file_name])
      | .ok kId =>
        match fetch_secret o kId with
        | .exc e =>
          (.exc e, [.confRead bucket_name conf_file_name, .secretFetch (secret_name kId)])
        | .ok gpg_public_key =>
          match jget conf (lit "gcs_bucket") with
          | .exc e =>
            (.exc e, [.confRead bucket_name conf_file_name, .secretFetch (secret_name kId)])
          | .ok bId =>
            match fetch_secret o bId with
            | .exc e =>
              (.exc e, [.confRead bucket_name conf_file_name,
                        .secretFetch (secret_name kId), .secretFetch (secret_name bId)])
            | .ok gcs_bucket =>
              match jget conf (lit "recipient_name") with
              | .exc e =>
                (.exc e, [.confRead bucket_name conf_file_name,
                          .secretFetch (secret_name kId), .secretFetch (secret_name bId)])
              | .ok rId =>
                match fetch_secret o rId with
                | .exc e =>
                  (.exc e, [.confRead bucket_name conf_file_name,
                            .secretFetch (secret_name kId), .secretFetch (secret_name bId),
                            .secretFetch (secret_name rId)])
                | .ok recipient_name =>
                  match jget conf (lit "file_name") with
                  | .exc e =>
                    (.exc e, [.confRead bucket_name conf_file_name,
                              .secretFetch (secret_name kId), .secretFetch (secret_name bId),
                              .secretFetch (secret_name rId)])
                  | .ok file_name =>
                    match jget conf (lit "file_path") with
                    | .exc e =>
                      (.exc e, [.confRead bucket_name conf_file_name,
                                .secretFetch (secret_name kId), .secretFetch (secret_name bId),
                                .secretFetch (secret_name rId)])
                    | .ok file_path =>
                      match jget conf (lit "encrypted_file_path") with
                      | .exc e =>
                        (.exc e, [.confRead bucket_name conf_file_name,
                                  .secretFetch (secret_name kId), .secretFetch (secret_name bId),
                                  .secretFetch (secret_name rId)])
                      | .ok encrypted_file_path =>
                        (.ok ⟨gpg_public_key, gcs_bucket, recipient_name,
                              file_name, file_path, encrypted_file_path⟩,
                         [.confRead bucket_name conf_file_name,
                          .secretFetch (secret_name kId), .secretFetch (secret_name bId),
                          .secretFetch (secret_name rId)])

/-- `read_and_encrypt_data` (lines 45-67): read the source blob at
`file_path + file_name` (a `TypeError` if either is `null`), import the key
material, run the engine, and raise
`ValueError(f"Encryption failed: {stderr}")` when its success flag is
false. -/
def read_and_encrypt_data (o : Oracle) (bucket_name : PyStr) (file_path file_name : JVal)
    (gpg_public_key recipient_name : PyStr) : Res EncRes × List Event :=
  match pyAdd file_path file_name with
  | .exc e => (.exc e, [])
  | .ok path =>
    match o.blobRead bucket_name path with
    | .exc e => (.exc e, [.blobRead bucket_name path])
    | .ok data_to_encrypt =>
      match o.gpgImport gpg_public_key with
      | .exc e => (.exc e, [.blobRead bucket_name path, .keyImport gpg_public_key])
      | .ok _ =>
        let encrypted_data := o.gpgEncrypt gpg_public_key data_to_encrypt recipient_name
        if encrypted_data.ok then
          (.ok encrypted_data,
           [.blobRead bucket_name path, .keyImport gpg_public_key, .encRun recipient_name])
        else
          (.exc (lit "Encryption failed: " ++ encrypted_data.stderr),
           [.blobRead bucket_name path, .keyImport gpg_public_key, .encRun recipient_name])

/-- `upload_encrypted_data` (lines 69-80): a single upload attempt of
`str(encrypted_data)` to `encrypted_file_path + file_name + ".asc"`
(a `TypeError` if a path component is `null`). -/
def upload_encrypted_data (o : Oracle) (bucket_name : PyStr) (encrypted_data : EncRes)
    (encrypted_file_path file_name : JVal) : Res Unit × List Event :=
  match pyAdd encrypted_file_path file_name with
  | .exc e => (.exc e, [])
  | .ok p =>
    (o.blobWrite bucket_name (p ++ lit ".asc") encrypted_data.data,
     [.blobWrite bucket_name (p ++ lit ".asc") encrypted_data.data])

/-- An HTTP response body: the success message object or an error object. -/
inductive Body where
  | msg (s : PyStr)
  | err (s : PyStr)
deriving DecidableEq, Repr

/-- An HTTP response: status code and JSON body. -/
structure Response where
  status : Nat
  body : Body
deriving DecidableEq, Repr

/-- The `/encryption` endpoint `encrypt` (lines 82-121): the four
try/except blocks in source order, each mapping a raised exception to its
response, plus the trace of attempted external calls. -/
def encrypt (o : Oracle) : Response × List Event :=
  match parse_path o.getArg with
  | .exc e => (⟨400, .err (lit "Invalid configuration path: " ++ e)⟩, [])
  | .ok (bucket_name, conf_file_name) =>
    match (fetch_config_and_secrets o bucket_name conf_file_name).1 with
    | .exc e =>
      (⟨500, .err (lit "Failed to fetch configuration or secrets: " ++ e)⟩,
       (fetch_config_and_secrets o bucket_name conf_file_name).2)
    | .ok c =>
      match (read_and_encrypt_data o c.gcs_bucket c.file_path c.file_name
          c.gpg_public_key c.recipient_name).1 with
      | .exc e =>
        (⟨500, .err (lit "Encryption failed: " ++ e)⟩,
         (fetch_config_and_secrets o bucket_name conf_file_name).2 ++
         (read_and_encrypt_data o c.gcs_bucket c.file_path c.file_name
           c.gpg_public_key c.recipient_name).2)
      | .ok encrypted_data =>
        match (upload_encrypted_data o c.gcs_bucket encrypted_data
            c.encrypted_file_path c.file_name).1 with
        | .exc e =>
          (⟨500, .err (lit "Failed to store encrypted file: " ++ e)⟩,
           (fetch_config_and_secrets o bucket_name conf_file_name).2 ++
           (read_and_encrypt_data o c.gcs_bucket c.file_path c.file_name
             c.gpg_public_key c.recipient_name).2 ++
           (upload_encrypted_data o c.gcs_bucket encrypted_data
             c.encrypted_file_path c.file_name).2)
        | .ok _ =>
          (⟨200, .msg (lit "Success, file was encrypted and stored in GCS.")⟩,
           (fetch_config_and_secrets o bucket_name conf_file_name).2 ++
           (read_and_encrypt_data o c.gcs_bucket c.file_path c.file_name
             c.gpg_public_key c.recipient_name).2 ++
           (upload_encrypted_data o c.gcs_bucket encrypted_data
             c.encrypted_file_path c.file_name).2)

/-- The destination-write attempts recorded in a trace. -/
def writeAttempts (tr : List Event) : List Event :=
  tr.filter (fun e => match e with | .blobWrite _ _ _ => true | _ => false)

/-- The secret-resolution attempts recorded in a trace. -/
def secretCalls (tr : List Event) : List Event :=
  tr.filter (fun e => match e with | .secretFetch _ => true | _ => false)

/-- A destination object exists at `(b, p)` after the run: some write of a
payload to `(b, p)` was attempted and the backend accepted it (writes are
whole-object, so a rejected write leaves nothing). -/
def persistedAt (o : Oracle) (tr : List Event) (b p : PyStr) : Prop :=
  ∃ payload, Event.blobWrite b p payload ∈ tr ∧ o.blobWrite b p payload = .ok ()

/-- All four stages of the pipeline succeed for this world. -/
def AllStagesOk (o : Oracle) : Prop :=
  ∃ bn cfn c enc,
    parse_path o.getArg = .ok (bn, cfn) ∧
    (fetch_config_and_secrets o bn cfn).1 = .ok c ∧
    (read_and_encrypt_data o c.gcs_bucket c.file_path c.file_name
      c.gpg_public_key c.recipient_name).1 = .ok enc ∧
    (upload_encrypted_data o c.gcs_bucket enc c.encrypted_file_path c.file_name).1 = .ok ()

/-! ## Splitting lemmas -/

theorem pySplitSlash_append (a b : PyStr) (ha : '/' ∉ a) :
    pySplitSlash (a ++ '/' :: b) = a :: pySplitSlash b := by
  induction a with
  | nil => simp [pySplitSlash]
  | cons c a ih =>
    have hc : c ≠ '/' := fun h => ha (h ▸ List.mem_cons_self c a)
    have ha' : '/' ∉ a := fun h => ha (List.mem_cons_of_mem c h)
    simp only [List.cons_append, pySplitSlash, if_neg hc, List.append_eq, ih ha']

theorem isPrefixOf_self_append (l t : PyStr) : l.isPrefixOf (l ++ t) = true := by
  induction l with
  | nil => simp [List.isPrefixOf]
  | cons c l ih => simp [List.isPrefixOf, ih]

theorem pySplit1_first (sep pre suf : PyStr) (hsep : sep ≠ [])
    (hfirst : ∀ i, i < pre.length → ¬ sep.isPrefixOf (List.drop i (pre ++ sep ++ suf))) :
    pySplit1 sep (pre ++ sep ++ suf) = some (pre, suf) := by
  induction pre with
  | nil =>
    match sep, hsep with
    | s0 :: s', _ =>
      simp only [List.nil_append, List.cons_append, pySplit1, List.append_eq]
      rw [← List.cons_append, isPrefixOf_self_append]
      simp [List.drop_left]
  | cons c pre ih =>
    have h0 := hfirst 0 (by simp)
    simp only [List.drop_zero] at h0
    have hrest : ∀ i, i < pre.length → ¬ sep.isPrefixOf (List.drop i (pre ++ sep ++ suf)) := by
      intro i hi
      have := hfirst (i + 1) (by simp; omega)
      simpa using this
    simp only [List.cons_append, pySplit1, List.append_eq]
    rw [if_neg (by simpa using h0)]
    rw [ih hrest]

theorem dropWhile_no_slash (key : PyStr) (hk : key.head? ≠ some '/') :
    key.dropWhile (fun c => c = '/') = key := by
  cases key with
  | nil => rfl
  | cons k ks =>
    have : k ≠ '/' := by intro h; exact hk (by simp [h])
    simp [List.dropWhile, this]

/-- Behaviour of `parse_path` on a well-formed `scheme://container/key`
input whose container name first occurs at its own position (the code
searches for the container name from the left, so an earlier occurrence
would shift the key). -/
theorem parse_path_wellformed (scheme container key : PyStr)
    (hs : '/' ∉ scheme) (hc : '/' ∉ container) (hcne : container ≠ [])
    (hk : key.head? ≠ some '/')
    (hfirst : ∀ i, i < (scheme ++ lit "://").length →
      ¬ container.isPrefixOf
        (List.drop i ((scheme ++ lit "://") ++ container ++ ('/' :: key)))) :
    parse_path (some (scheme ++ lit "://" ++ container ++ lit "/" ++ key))
      = .ok (container, key) ∧
    (pySplitSlash (scheme ++ lit "://" ++ container ++ lit "/" ++ key))[2]?
      = some container := by
  have hp : scheme ++ lit "://" ++ container ++ lit "/" ++ key
      = (scheme ++ [':']) ++ '/' :: ('/' :: (container ++ '/' :: key)) := by
    simp [lit, List.append_assoc]
  have hsplit : pySplitSlash (scheme ++ lit "://" ++ container ++ lit "/" ++ key)
      = (scheme ++ [':']) :: [] :: container :: pySplitSlash key := by
    rw [hp, pySplitSlash_append (scheme ++ [':']) _ (by
      intro h
      rcases List.mem_append.1 h with h1 | h1
      · exact hs h1
      · simp at h1)]
    have : pySplitSlash ('/' :: (container ++ '/' :: key))
        = [] :: pySplitSlash (container ++ '/' :: key) := by
      simp [pySplitSlash]
    rw [this, pySplitSlash_append container key hc]
  constructor
  · simp only [parse_path]
    rw [hsplit]
    simp only [List.getElem?_cons_succ, List.getElem?_cons_zero]
    rw [if_neg (by simpa using hcne)]
    have hq : scheme ++ lit "://" ++ container ++ lit "/" ++ key
        = (scheme ++ lit "://") ++ container ++ ('/' :: key) := by
      simp [lit, List.append_assoc]
    rw [hq, pySplit1_first container (scheme ++ lit "://") ('/' :: key) hcne hfirst]
    have : List.dropWhile (fun c => c = '/') ('/' :: key) = key := by
      simp only [List.dropWhile]
      simp [dropWhile_no_slash key hk]
    simp only [this]
  · rw [hsplit]
    simp

/-! ## Trace lemmas -/

theorem config_no_write (o : Oracle) (bn cfn : PyStr) :
    writeAttempts (fetch_config_and_secrets o bn cfn).2 = [] := by
  unfold fetch_config_and_secrets
  repeat' split
  all_goals simp [writeAttempts, List.filter]

theorem config_no_read (o : Oracle) (bn cfn : PyStr) (b p : PyStr) :
    Event.blobRead b p ∉ (fetch_config_and_secrets o bn cfn).2 := by
  unfold fetch_config_and_secrets
  repeat' split
  all_goals simp

theorem read_no_write (o : Oracle) (bn : PyStr) (fp fn : JVal) (k r : PyStr) :
    writeAttempts (read_and_encrypt_data o bn fp fn k r).2 = [] := by
  unfold read_and_encrypt_data
  repeat' split
  all_goals simp [writeAttempts, List.filter, apply_ite]

theorem upload_write_le (o : Oracle) (bn : PyStr) (enc : EncRes) (efp fn : JVal) :
    (writeAttempts (upload_encrypted_data o bn enc efp fn).2).length ≤ 1 := by
  unfold upload_encrypted_data
  repeat' split
  all_goals simp [writeAttempts, List.filter]

theorem not_write_mem_of_writeAttempts_nil (tr : List Event) (h : writeAttempts tr = [])
    (b p d : PyStr) : Event.blobWrite b p d ∉ tr := by
  intro hmem
  have : Event.blobWrite b p d ∈ writeAttempts tr :=
    List.mem_filter.2 ⟨hmem, rfl⟩
  rw [h] at this
  simp at this

end EncryptPy

namespace EncryptPy

theorem jget_ok (conf : Json) (k : PyStr) (v : JVal) :
    jget conf k = .ok v ↔ conf.lookup k = some v := by
  unfold jget
  split
  next v' heq =>
    constructor
    · intro h
      injection h with h'
      rw [heq, h']
    · intro h
      rw [heq] at h
      injection h with h'
      rw [h']
  next heq =>
    constructor
    · intro h
      exact Res.noConfusion h
    · intro h
      rw [heq] at h
      exact Option.noConfusion h

theorem jget_exc (conf : Json) (k : PyStr) :
    (∃ e, jget conf k = .exc e) ↔ conf.lookup k = none := by
  unfold jget
  split
  next v' heq =>
    constructor
    · rintro ⟨e, h⟩
      exact Res.noConfusion h
    · intro h
      rw [heq] at h
      exact Option.noConfusion h
  next heq =>
    constructor
    · intro _
      exact heq
    · intro _
      exact ⟨_, rfl⟩

theorem pyAdd_ok_inv (a b : JVal) (p : PyStr) (h : pyAdd a b = .ok p) :
    ∃ sa sb, a = .jstr sa ∧ b = .jstr sb ∧ p = sa ++ sb := by
  cases a <;> cases b <;> simp_all [pyAdd]

theorem config_ok_inv (o : Oracle) (bn cfn : PyStr) (c : ConfigVals)
    (h : (fetch_config_and_secrets o bn cfn).1 = .ok c) :
    ∃ content conf kId bId rId,
      o.confFetch bn cfn = .ok content ∧
      o.jsonLoads content = .ok conf ∧
      conf.lookup (lit "gpg_public_key") = some kId ∧
      o.secret (secret_name kId) = .ok c.gpg_public_key ∧
      conf.lookup (lit "gcs_bucket") = some bId ∧
      o.secret (secret_name bId) = .ok c.gcs_bucket ∧
      conf.lookup (lit "recipient_name") = some rId ∧
      o.secret (secret_name rId) = .ok c.recipient_name ∧
      conf.lookup (lit "file_name") = some c.file_name ∧
      conf.lookup (lit "file_path") = some c.file_path ∧
      conf.lookup (lit "encrypted_file_path") = some c.encrypted_file_path ∧
      (fetch_config_and_secrets o bn cfn).2
        = [.confRead bn cfn, .secretFetch (secret_name kId),
           .secretFetch (secret_name bId), .secretFetch (secret_name rId)] := by
  unfold fetch_config_and_secrets fetch_conf_details fetch_secret at h
  cases h1 : o.confFetch bn cfn with
  | exc e => simp [h1] at h
  | ok content =>
  simp only [h1] at h
  cases h2 : o.jsonLoads content with
  | exc e => simp [h2] at h
  | ok conf =>
  simp only [h2] at h
  cases h3 : jget conf (lit "gpg_public_key") with
  | exc e => simp [h3] at h
  | ok kId =>
  simp only [h3] at h
  cases h4 : o.secret (secret_name kId) with
  | exc e => simp [h4] at h
  | ok kv =>
  simp only [h4] at h
  cases h5 : jget conf (lit "gcs_bucket") with
  | exc e => simp [h5] at h
  | ok bId =>
  simp only [h5] at h
  cases h6 : o.secret (secret_name bId) with
  | exc e => simp [h6] at h
  | ok bv =>
  simp only [h6] at h
  cases h7 : jget conf (lit "recipient_name") with
  | exc e => simp [h7] at h
  | ok rId =>
  simp only [h7] at h
  cases h8 : o.secret (secret_name rId) with
  | exc e => simp [h8] at h
  | ok rv =>
  simp only [h8] at h
  cases h9 : jget conf (lit "file_name") with
  | exc e => simp [h9] at h
  | ok fnv =>
  simp only [h9] at h
  cases h10 : jget conf (lit "file_path") with
  | exc e => simp [h10] at h
  | ok fpv =>
  simp only [h10] at h
  cases h11 : jget conf (lit "encrypted_file_path") with
  | exc e => simp [h11] at h
  | ok efpv =>
  simp only [h11] at h
  have hc : c = ⟨kv, bv, rv, fnv, fpv, efpv⟩ := by
    injection h with h'
    exact h'.symm
  subst hc
  refine ⟨content, conf, kId, bId, rId, rfl, h2, (jget_ok _ _ _).1 h3, h4,
    (jget_ok _ _ _).1 h5, h6, (jget_ok _ _ _).1 h7, h8,
    (jget_ok _ _ _).1 h9, (jget_ok _ _ _).1 h10, (jget_ok _ _ _).1 h11, ?_⟩
  simp [fetch_config_and_secrets, fetch_conf_details, fetch_secret,
    h1, h2, h3, h4, h5, h6, h7, h8, h9, h10, h11]

end EncryptPy

namespace EncryptPy

theorem read_ok_inv (o : Oracle) (bn : PyStr) (fp fn : JVal) (k r : PyStr) (enc : EncRes)
    (h : (read_and_encrypt_data o bn fp fn k r).1 = .ok enc) :
    ∃ fps fns data, fp = .jstr fps ∧ fn = .jstr fns ∧
      o.blobRead bn (fps ++ fns) = .ok data ∧
      o.gpgImport k = .ok () ∧
      o.gpgEncrypt k data r = enc ∧ enc.ok = true ∧
      (read_and_encrypt_data o bn fp fn k r).2
        = [.blobRead bn (fps ++ fns), .keyImport k, .encRun r] := by
  unfold read_and_encrypt_data at h
  cases h1 : pyAdd fp fn with
  | exc e => simp [h1] at h
  | ok path =>
  simp only [h1] at h
  cases h2 : o.blobRead bn path with
  | exc e => simp [h2] at h
  | ok data =>
  simp only [h2] at h
  cases h3 : o.gpgImport k with
  | exc e => simp [h3] at h
  | ok u =>
  simp only [h3] at h
  by_cases h4 : (o.gpgEncrypt k data r).ok = true
  · rw [if_pos h4] at h
    obtain ⟨fps, fns, hfp, hfn, hpath⟩ := pyAdd_ok_inv fp fn path h1
    subst hpath
    have henc : o.gpgEncrypt k data r = enc := by
      injection h with h'
    refine ⟨fps, fns, data, hfp, hfn, h2, rfl, henc, by rw [← henc]; exact h4, ?_⟩
    simp [read_and_encrypt_data, h1, h2, h3, if_pos h4]
  · rw [if_neg h4] at h
    simp at h

theorem upload_ok_inv (o : Oracle) (bn : PyStr) (enc : EncRes) (efp fn : JVal)
    (h : (upload_encrypted_data o bn enc efp fn).1 = .ok ()) :
    ∃ efps fns, efp = .jstr efps ∧ fn = .jstr fns ∧
      o.blobWrite bn (efps ++ fns ++ lit ".asc") enc.data = .ok () ∧
      (upload_encrypted_data o bn enc efp fn).2
        = [.blobWrite bn (efps ++ fns ++ lit ".asc") enc.data] := by
  unfold upload_encrypted_data at h
  cases h1 : pyAdd efp fn with
  | exc e => simp [h1] at h
  | ok p =>
  simp only [h1] at h
  obtain ⟨efps, fns, hefp, hfn, hp⟩ := pyAdd_ok_inv efp fn p h1
  subst hp
  refine ⟨efps, fns, hefp, hfn, ?_, ?_⟩
  · rw [List.append_assoc] at h ⊢
    exact h
  · simp [upload_encrypted_data, h1, List.append_assoc]

theorem upload_exc_inv (o : Oracle) (bn : PyStr) (enc : EncRes) (efp fn : JVal) (e : PyStr)
    (h : (upload_encrypted_data o bn enc efp fn).1 = .exc e) :
    (upload_encrypted_data o bn enc efp fn).2 = []
    ∨ ∃ p, o.blobWrite bn (p ++ lit ".asc") enc.data = .exc e ∧
        (upload_encrypted_data o bn enc efp fn).2
          = [.blobWrite bn (p ++ lit ".asc") enc.data] := by
  unfold upload_encrypted_data at h ⊢
  cases h1 : pyAdd efp fn with
  | exc e2 => simp [h1]
  | ok p =>
  simp only [h1] at h ⊢
  exact .inr ⟨p, h, rfl⟩

end EncryptPy

namespace EncryptPy

theorem read_blob_exc (o : Oracle) (bn : PyStr) (fp fn : JVal) (k r path e : PyStr)
    (h1 : pyAdd fp fn = .ok path) (h2 : o.blobRead bn path = .exc e) :
    read_and_encrypt_data o bn fp fn k r = (.exc e, [.blobRead bn path]) := by
  simp [read_and_encrypt_data, h1, h2]

theorem read_import_exc (o : Oracle) (bn : PyStr) (fp fn : JVal) (k r path data e : PyStr)
    (h1 : pyAdd fp fn = .ok path) (h2 : o.blobRead bn path = .ok data)
    (h3 : o.gpgImport k = .exc e) :
    read_and_encrypt_data o bn fp fn k r = (.exc e, [.blobRead bn path, .keyImport k]) := by
  simp [read_and_encrypt_data, h1, h2, h3]

theorem read_engine_fail (o : Oracle) (bn : PyStr) (fp fn : JVal) (k r path data : PyStr)
    (h1 : pyAdd fp fn = .ok path) (h2 : o.blobRead bn path = .ok data)
    (h3 : o.gpgImport k = .ok ()) (h4 : (o.gpgEncrypt k data r).ok = false) :
    read_and_encrypt_data o bn fp fn k r
      = (.exc (lit "Encryption failed: " ++ (o.gpgEncrypt k data r).stderr),
         [.blobRead bn path, .keyImport k, .encRun r]) := by
  simp [read_and_encrypt_data, h1, h2, h3, h4]

theorem read_engine_ok (o : Oracle) (bn : PyStr) (fp fn : JVal) (k r path data : PyStr)
    (h1 : pyAdd fp fn = .ok path) (h2 : o.blobRead bn path = .ok data)
    (h3 : o.gpgImport k = .ok ()) (h4 : (o.gpgEncrypt k data r).ok = true) :
    read_and_encrypt_data o bn fp fn k r
      = (.ok (o.gpgEncrypt k data r), [.blobRead bn path, .keyImport k, .encRun r]) := by
  simp [read_and_encrypt_data, h1, h2, h3, h4]

theorem config_all_present (o : Oracle) (bn cfn content : PyStr) (conf : Json)
    (kId bId rId : JVal) (k b r : PyStr) (fnv fpv efpv : JVal)
    (h1 : o.confFetch bn cfn = .ok content)
    (h2 : o.jsonLoads content = .ok conf)
    (h3 : conf.lookup (lit "gpg_public_key") = some kId)
    (h4 : o.secret (secret_name kId) = .ok k)
    (h5 : conf.lookup (lit "gcs_bucket") = some bId)
    (h6 : o.secret (secret_name bId) = .ok b)
    (h7 : conf.lookup (lit "recipient_name") = some rId)
    (h8 : o.secret (secret_name rId) = .ok r)
    (h9 : conf.lookup (lit "file_name") = some fnv)
    (h10 : conf.lookup (lit "file_path") = some fpv)
    (h11 : conf.lookup (lit "encrypted_file_path") = some efpv) :
    (fetch_config_and_secrets o bn cfn).1 = .ok ⟨k, b, r, fnv, fpv, efpv⟩ := by
  simp [fetch_config_and_secrets, fetch_conf_details, fetch_secret, jget,
    h1, h2, h3, h4, h5, h6, h7, h8, h9, h10, h11]

theorem config_missing_field (o : Oracle) (bn cfn content : PyStr) (conf : Json)
    (h1 : o.confFetch bn cfn = .ok content)
    (h2 : o.jsonLoads content = .ok conf)
    (hmiss : conf.lookup (lit "gpg_public_key") = none ∨
             conf.lookup (lit "gcs_bucket") = none ∨
             conf.lookup (lit "recipient_name") = none ∨
             conf.lookup (lit "file_name") = none ∨
             conf.lookup (lit "file_path") = none ∨
             conf.lookup (lit "encrypted_file_path") = none) :
    ∃ e, (fetch_config_and_secrets o bn cfn).1 = .exc e := by
  cases h3 : jget conf (lit "gpg_public_key") with
  | exc e =>
    exact ⟨e, by simp [fetch_config_and_secrets, fetch_conf_details, fetch_secret, h1, h2, h3]⟩
  | ok kId =>
  cases h4 : o.secret (secret_name kId) with
  | exc e =>
    exact ⟨e, by
      simp [fetch_config_and_secrets, fetch_conf_details, fetch_secret, h1, h2, h3, h4]⟩
  | ok kv =>
  cases h5 : jget conf (lit "gcs_bucket") with
  | exc e =>
    exact ⟨e, by
      simp [fetch_config_and_secrets, fetch_conf_details, fetch_secret, h1, h2, h3, h4, h5]⟩
  | ok bId =>
  cases h6 : o.secret (secret_name bId) with
  | exc e =>
    exact ⟨e, by
      simp [fetch_config_and_secrets, fetch_conf_details, fetch_secret, h1, h2, h3, h4, h5, h6]⟩
  | ok bv =>
  cases h7 : jget conf (lit "recipient_name") with
  | exc e =>
    exact ⟨e, by
      simp [fetch_config_and_secrets, fetch_conf_details, fetch_secret,
        h1, h2, h3, h4, h5, h6, h7]⟩
  | ok rId =>
  cases h8 : o.secret (secret_name rId) with
  | exc e =>
    exact ⟨e, by
      simp [fetch_config_and_secrets, fetch_conf_details, fetch_secret,
        h1, h2, h3, h4, h5, h6, h7, h8]⟩
  | ok rv =>
  cases h9 : jget conf (lit "file_name") with
  | exc e =>
    exact ⟨e, by
      simp [fetch_config_and_secrets, fetch_conf_details, fetch_secret,
        h1, h2, h3, h4, h5, h6, h7, h8, h9]⟩
  | ok fnv =>
  cases h10 : jget conf (lit "file_path") with
  | exc e =>
    exact ⟨e, by
      simp [fetch_config_and_secrets, fetch_conf_details, fetch_secret,
        h1, h2, h3, h4, h5, h6, h7, h8, h9, h10]⟩
  | ok fpv =>
  cases h11 : jget conf (lit "encrypted_file_path") with
  | exc e =>
    exact ⟨e, by
      simp [fetch_config_and_secrets, fetch_conf_details, fetch_secret,
        h1, h2, h3, h4, h5, h6, h7, h8, h9, h10, h11]⟩
  | ok efpv =>
  have l1 := (jget_ok _ _ _).1 h3
  have l2 := (jget_ok _ _ _).1 h5
  have l3 := (jget_ok _ _ _).1 h7
  have l4 := (jget_ok _ _ _).1 h9
  have l5 := (jget_ok _ _ _).1 h10
  have l6 := (jget_ok _ _ _).1 h11
  rcases hmiss with hm | hm | hm | hm | hm | hm <;> simp_all

theorem encrypt_parse_exc (o : Oracle) (e : PyStr) (h : parse_path o.getArg = .exc e) :
    encrypt o = (⟨400, .err (lit "Invalid configuration path: " ++ e)⟩, []) := by
  simp [encrypt, h]

theorem encrypt_config_exc (o : Oracle) (bn cfn e : PyStr)
    (hp : parse_path o.getArg = .ok (bn, cfn))
    (hc : (fetch_config_and_secrets o bn cfn).1 = .exc e) :
    encrypt o = (⟨500, .err (lit "Failed to fetch configuration or secrets: " ++ e)⟩,
                 (fetch_config_and_secrets o bn cfn).2) := by
  simp [encrypt, hp, hc]

theorem encrypt_read_exc (o : Oracle) (bn cfn : PyStr) (c : ConfigVals) (e : PyStr)
    (hp : parse_path o.getArg = .ok (bn, cfn))
    (hc : (fetch_config_and_secrets o bn cfn).1 = .ok c)
    (hr : (read_and_encrypt_data o c.gcs_bucket c.file_path c.file_name
            c.gpg_public_key c.recipient_name).1 = .exc e) :
    encrypt o = (⟨500, .err (lit "Encryption failed: " ++ e)⟩,
      (fetch_config_and_secrets o bn cfn).2 ++
      (read_and_encrypt_data o c.gcs_bucket c.file_path c.file_name
        c.gpg_public_key c.recipient_name).2) := by
  simp [encrypt, hp, hc, hr]

theorem encrypt_upload_exc (o : Oracle) (bn cfn : PyStr) (c : ConfigVals) (enc : EncRes)
    (e : PyStr)
    (hp : parse_path o.getArg = .ok (bn, cfn))
    (hc : (fetch_config_and_secrets o bn cfn).1 = .ok c)
    (hr : (read_and_encrypt_data o c.gcs_bucket c.file_path c.file_name
            c.gpg_public_key c.recipient_name).1 = .ok enc)
    (hu : (upload_encrypted_data o c.gcs_bucket enc c.encrypted_file_path c.file_name).1
            = .exc e) :
    encrypt o = (⟨500, .err (lit "Failed to store encrypted file: " ++ e)⟩,
      (fetch_config_and_secrets o bn cfn).2 ++
      (read_and_encrypt_data o c.gcs_bucket c.file_path c.file_name
        c.gpg_public_key c.recipient_name).2 ++
      (upload_encrypted_data o c.gcs_bucket enc c.encrypted_file_path c.file_name).2) := by
  simp [encrypt, hp, hc, hr, hu]

theorem encrypt_all_ok (o : Oracle) (bn cfn : PyStr) (c : ConfigVals) (enc : EncRes)
    (hp : parse_path o.getArg = .ok (bn, cfn))
    (hc : (fetch_config_and_secrets o bn cfn).1 = .ok c)
    (hr : (read_and_encrypt_data o c.gcs_bucket c.file_path c.file_name
            c.gpg_public_key c.recipient_name).1 = .ok enc)
    (hu : (upload_encrypted_data o c.gcs_bucket enc c.encrypted_file_path c.file_name).1
            = .ok ()) :
    encrypt o = (⟨200, .msg (lit "Success, file was encrypted and stored in GCS.")⟩,
      (fetch_config_and_secrets o bn cfn).2 ++
      (read_and_encrypt_data o c.gcs_bucket c.file_path c.file_name
        c.gpg_public_key c.recipient_name).2 ++
      (upload_encrypted_data o c.gcs_bucket enc c.encrypted_file_path c.file_name).2) := by
  simp [encrypt, hp, hc, hr, hu]

theorem encrypt_200_inv (o : Oracle) (h : (encrypt o).1.status = 200) :
    ∃ bn cfn c enc,
      parse_path o.getArg = .ok (bn, cfn) ∧
      (fetch_config_and_secrets o bn cfn).1 = .ok c ∧
      (read_and_encrypt_data o c.gcs_bucket c.file_path c.file_name
        c.gpg_public_key c.recipient_name).1 = .ok enc ∧
      (upload_encrypted_data o c.gcs_bucket enc c.encrypted_file_path c.file_name).1
        = .ok () ∧
      encrypt o = (⟨200, .msg (lit "Success, file was encrypted and stored in GCS.")⟩,
        (fetch_config_and_secrets o bn cfn).2 ++
        (read_and_encrypt_data o c.gcs_bucket c.file_path c.file_name
          c.gpg_public_key c.recipient_name).2 ++
        (upload_encrypted_data o c.gcs_bucket enc c.encrypted_file_path c.file_name).2) := by
  cases hp : parse_path o.getArg with
  | exc e =>
    rw [encrypt_parse_exc o e hp] at h
    simp at h
  | ok pr =>
  obtain ⟨bn, cfn⟩ := pr
  cases hc : (fetch_config_and_secrets o bn cfn).1 with
  | exc e =>
    rw [encrypt_config_exc o bn cfn e hp hc] at h
    simp at h
  | ok c =>
  cases hr : (read_and_encrypt_data o c.gcs_bucket c.file_path c.file_name
      c.gpg_public_key c.recipient_name).1 with
  | exc e =>
    rw [encrypt_read_exc o bn cfn c e hp hc hr] at h
    simp at h
  | ok enc =>
  cases hu : (upload_encrypted_data o c.gcs_bucket enc c.encrypted_file_path c.file_name).1 with
  | exc e =>
    rw [encrypt_upload_exc o bn cfn c enc e hp hc hr hu] at h
    simp at h
  | ok u =>
  exact ⟨bn, cfn, c, enc, rfl, hc, hr, hu, encrypt_all_ok o bn cfn c enc hp hc hr hu⟩

theorem encrypt_400_inv (o : Oracle) (h : (encrypt o).1.status = 400) :
    ∃ e, parse_path o.getArg = .exc e := by
  cases hp : parse_path o.getArg with
  | exc e => exact ⟨e, rfl⟩
  | ok pr =>
  obtain ⟨bn, cfn⟩ := pr
  cases hc : (fetch_config_and_secrets o bn cfn).1 with
  | exc e =>
    rw [encrypt_config_exc o bn cfn e hp hc] at h
    simp at h
  | ok c =>
  cases hr : (read_and_encrypt_data o c.gcs_bucket c.file_path c.file_name
      c.gpg_public_key c.recipient_name).1 with
  | exc e =>
    rw [encrypt_read_exc o bn cfn c e hp hc hr] at h
    simp at h
  | ok enc =>
  cases hu : (upload_encrypted_data o c.gcs_bucket enc c.encrypted_file_path c.file_name).1 with
  | exc e =>
    rw [encrypt_upload_exc o bn cfn c enc e hp hc hr hu] at h
    simp at h
  | ok u =>
  rw [encrypt_all_ok o bn cfn c enc hp hc hr hu] at h
  simp at h

end EncryptPy

namespace EncryptPy

/-- Configuration object used by the concrete worlds below. -/
def confJW : Json :=
  [(lit "gpg_public_key", .jstr (lit "kid")),
   (lit "gcs_bucket", .jstr (lit "bid")),
   (lit "recipient_name", .jstr (lit "rid")),
   (lit "file_name", .jstr (lit "report.csv")),
   (lit "file_path", .jstr (lit "in/")),
   (lit "encrypted_file_path", .jstr (lit "out/"))]

/-- A happy-path world: every external call succeeds. -/
def OW : Oracle where
  getArg := some (lit "gs://cfgbucket/app/conf.json")
  confFetch := fun b n =>
    if b = lit "cfgbucket" ∧ n = lit "app/conf.json" then .ok (lit "CONF")
    else .exc (lit "NotFound")
  jsonLoads := fun s => if s = lit "CONF" then .ok confJW else .exc (lit "JSONDecodeError")
  secret := fun n =>
    if n = lit "kid/versions/latest" then .ok (lit "PUBKEY")
    else if n = lit "bid/versions/latest" then .ok (lit "data-bucket")
    else if n = lit "rid/versions/latest" then .ok (lit "alice")
    else .exc (lit "SecretNotFound")
  blobRead := fun b p =>
    if b = lit "data-bucket" ∧ p = lit "in/report.csv" then .ok (lit "DATA")
    else .exc (lit "404 blob not found")
  gpgImport := fun _ => .ok ()
  gpgEncrypt := fun _ _ _ => ⟨true, lit "CIPHER", lit ""⟩
  blobWrite := fun _ _ _ => .ok ()

/-- The configuration record the happy-path world resolves to. -/
def cW : ConfigVals :=
  ⟨lit "PUBKEY", lit "data-bucket", lit "alice",
   .jstr (lit "report.csv"), .jstr (lit "in/"), .jstr (lit "out/")⟩

/-- A world whose request has a two-segment configuration path. -/
def OShort : Oracle := { OW with getArg := some (lit "a/b") }

/-- A world whose request carries no `conf_path` parameter at all. -/
def ONone : Oracle := { OW with getArg := none }

/-- A world whose encryption engine reports failure. -/
def OEncFail : Oracle :=
  { OW with gpgEncrypt := fun _ _ _ => ⟨false, lit "", lit "invalid recipient"⟩ }

/-- A world whose source object is absent. -/
def OReadFail : Oracle :=
  { OW with blobRead := fun _ _ => .exc (lit "404 source object not found") }

/-- Configuration object with `file_name` null but all six fields present. -/
def confJN : Json :=
  [(lit "gpg_public_key", .jstr (lit "kid")),
   (lit "gcs_bucket", .jstr (lit "bid")),
   (lit "recipient_name", .jstr (lit "rid")),
   (lit "file_name", JVal.jnull),
   (lit "file_path", .jstr (lit "in/")),
   (lit "encrypted_file_path", .jstr (lit "out/"))]

/-- A world whose configuration has a null `file_name`. -/
def ONull : Oracle :=
  { OW with jsonLoads := fun s =>
      if s = lit "CONF" then .ok confJN else .exc (lit "JSONDecodeError") }

/-- Configuration object missing the `gpg_public_key` field. -/
def confJM : Json :=
  [(lit "gcs_bucket", .jstr (lit "bid")),
   (lit "recipient_name", .jstr (lit "rid")),
   (lit "file_name", .jstr (lit "report.csv")),
   (lit "file_path", .jstr (lit "in/")),
   (lit "encrypted_file_path", .jstr (lit "out/"))]

/-- A world whose configuration is missing a required field. -/
def ONoField : Oracle :=
  { OW with jsonLoads := fun s =>
      if s = lit "CONF" then .ok confJM else .exc (lit "JSONDecodeError") }

/-! ## Claim theorems -/

theorem allStagesOk_200 (o : Oracle) : AllStagesOk o ↔ (encrypt o).1.status = 200 := by
  constructor
  · rintro ⟨bn, cfn, c, enc, hp, hc, hr, hu⟩
    rw [encrypt_all_ok o bn cfn c enc hp hc hr hu]
  · intro h
    obtain ⟨bn, cfn, c, enc, hp, hc, hr, hu, _⟩ := encrypt_200_inv o h
    exact ⟨bn, cfn, c, enc, hp, hc, hr, hu⟩

/-- C1 (counterexample): on the well-formed input `s://s/a/b/c` (scheme
`s`, container `s`, key `a/b/c`) the parser does return the third
slash-delimited segment as the container, but the object key comes out as
`://s/a/b/c`, not `a/b/c`: the code splits on the first occurrence of the
container name, which here lies inside the scheme. -/
theorem C1_counterexample :
    (pySplitSlash (lit "s" ++ lit "://" ++ lit "s" ++ lit "/" ++ lit "a/b/c"))[2]?
      = some (lit "s") ∧
    parse_path (some (lit "s" ++ lit "://" ++ lit "s" ++ lit "/" ++ lit "a/b/c"))
      = .ok (lit "s", lit "://s/a/b/c") ∧
    (lit "://s/a/b/c" : PyStr) ≠ lit "a/b/c" := by
  decide

/-- C1 (amended): for every well-formed `scheme://container/key` input in
which the container name does not occur anywhere before its own position,
parsing yields the third slash-delimited segment as the container and the
key with the leading slash stripped; for every input whose slash-split has
fewer than three segments, parsing raises and the endpoint answers 400. -/
theorem C1_parse_path :
    (∀ scheme container key : PyStr,
      '/' ∉ scheme → '/' ∉ container → container ≠ [] →
      key.head? ≠ some '/' →
      (∀ i, i < (scheme ++ lit "://").length →
        ¬ container.isPrefixOf
          (List.drop i ((scheme ++ lit "://") ++ container ++ ('/' :: key)))) →
      parse_path (some (scheme ++ lit "://" ++ container ++ lit "/" ++ key))
        = .ok (container, key) ∧
      (pySplitSlash (scheme ++ lit "://" ++ container ++ lit "/" ++ key))[2]?
        = some container) ∧
    (∀ (o : Oracle) (p : PyStr), o.getArg = some p → (pySplitSlash p).length < 3 →
      (encrypt o).1 = ⟨400, .err (lit "Invalid configuration path: "
        ++ lit "IndexError: list index out of range")⟩) := by
  constructor
  · exact parse_path_wellformed
  · intro o p harg hlen
    have hnone : (pySplitSlash p)[2]? = none := List.getElem?_eq_none (by omega)
    have hparse : parse_path o.getArg
        = .exc (lit "IndexError: list index out of range") := by
      rw [harg]
      simp [parse_path, hnone]
    rw [encrypt_parse_exc o _ hparse]

theorem C1_witness :
    (parse_path (some (lit "gs" ++ lit "://" ++ lit "cfgbucket" ++ lit "/"
        ++ lit "app/conf.json"))
      = .ok (lit "cfgbucket", lit "app/conf.json") ∧
     (pySplitSlash (lit "gs" ++ lit "://" ++ lit "cfgbucket" ++ lit "/"
        ++ lit "app/conf.json"))[2]? = some (lit "cfgbucket")) ∧
    (encrypt OShort).1 = ⟨400, .err (lit "Invalid configuration path: "
      ++ lit "IndexError: list index out of range")⟩ :=
  ⟨C1_parse_path.1 (lit "gs") (lit "cfgbucket") (lit "app/conf.json")
      (by decide) (by decide) (by decide) (by decide) (by decide),
   C1_parse_path.2 OShort (lit "a/b") rfl (by decide)⟩

/-- C9: a `conf_path` with exactly two slash-delimited segments is answered
with status 400 and a path-parsing error body, and the trace is empty: no
storage read, no storage write, and no secret resolution is attempted. -/
theorem C9_short_path (o : Oracle) (p : PyStr) (harg : o.getArg = some p)
    (hlen : (pySplitSlash p).length = 2) :
    (encrypt o).1.status = 400 ∧
    (encrypt o).1.body = .err (lit "Invalid configuration path: "
      ++ lit "IndexError: list index out of range") ∧
    (encrypt o).2 = [] := by
  have hnone : (pySplitSlash p)[2]? = none := List.getElem?_eq_none (by omega)
  have hparse : parse_path o.getArg
      = .exc (lit "IndexError: list index out of range") := by
    rw [harg]
    simp [parse_path, hnone]
  rw [encrypt_parse_exc o _ hparse]
  exact ⟨rfl, rfl, rfl⟩

theorem C9_witness :
    (encrypt OShort).1.status = 400 ∧
    (encrypt OShort).1.body = .err (lit "Invalid configuration path: "
      ++ lit "IndexError: list index out of range") ∧
    (encrypt OShort).2 = [] :=
  C9_short_path OShort (lit "a/b") rfl (by decide)

/-- C10: when the `conf_path` parameter is absent altogether, splitting
`None` raises `AttributeError`, the parsing-stage except block absorbs it,
and the endpoint answers 400 with an invalid-configuration-path error body
instead of crashing; nothing external is called. -/
theorem C10_missing_param (o : Oracle) (harg : o.getArg = none) :
    (encrypt o).1.status = 400 ∧
    (encrypt o).1.body = .err (lit "Invalid configuration path: "
      ++ lit "AttributeError: NoneType object has no attribute split") ∧
    (encrypt o).2 = [] := by
  have hparse : parse_path o.getArg
      = .exc (lit "AttributeError: NoneType object has no attribute split") := by
    rw [harg]
    rfl
  rw [encrypt_parse_exc o _ hparse]
  exact ⟨rfl, rfl, rfl⟩

theorem C10_witness :
    (encrypt ONone).1.status = 400 ∧
    (encrypt ONone).1.body = .err (lit "Invalid configuration path: "
      ++ lit "AttributeError: NoneType object has no attribute split") ∧
    (encrypt ONone).2 = [] :=
  C10_missing_param ONone rfl

theorem writeAttempts_append (a b : List Event) :
    writeAttempts (a ++ b) = writeAttempts a ++ writeAttempts b :=
  List.filter_append _ _

theorem secretCalls_append (a b : List Event) :
    secretCalls (a ++ b) = secretCalls a ++ secretCalls b :=
  List.filter_append _ _

/-- C3: every response is one of exactly three shapes: status 200 with the
fixed success message body, status 400 with an error body (precisely when
path parsing raised), or status 500 with an error body; and status 200 is
answered exactly when all four stages succeed. -/
theorem C3_response (o : Oracle) :
    ((encrypt o).1.status = 200 ∧
       (encrypt o).1.body = .msg (lit "Success, file was encrypted and stored in GCS.")
     ∨ (encrypt o).1.status = 400 ∧ (∃ s, (encrypt o).1.body = .err s)
     ∨ (encrypt o).1.status = 500 ∧ (∃ s, (encrypt o).1.body = .err s)) ∧
    ((encrypt o).1.status = 400 ↔ ∃ e, parse_path o.getArg = .exc e) ∧
    ((encrypt o).1.status = 200 ↔ AllStagesOk o) := by
  refine ⟨?_, ⟨encrypt_400_inv o, ?_⟩, (allStagesOk_200 o).symm⟩
  · cases hp : parse_path o.getArg with
    | exc e =>
      rw [encrypt_parse_exc o e hp]
      exact .inr (.inl ⟨rfl, _, rfl⟩)
    | ok pr =>
    obtain ⟨bn, cfn⟩ := pr
    cases hc : (fetch_config_and_secrets o bn cfn).1 with
    | exc e =>
      rw [encrypt_config_exc o bn cfn e hp hc]
      exact .inr (.inr ⟨rfl, _, rfl⟩)
    | ok c =>
    cases hr : (read_and_encrypt_data o c.gcs_bucket c.file_path c.file_name
        c.gpg_public_key c.recipient_name).1 with
    | exc e =>
      rw [encrypt_read_exc o bn cfn c e hp hc hr]
      exact .inr (.inr ⟨rfl, _, rfl⟩)
    | ok enc =>
    cases hu : (upload_encrypted_data o c.gcs_bucket enc
        c.encrypted_file_path c.file_name).1 with
    | exc e =>
      rw [encrypt_upload_exc o bn cfn c enc e hp hc hr hu]
      exact .inr (.inr ⟨rfl, _, rfl⟩)
    | ok u =>
      rw [encrypt_all_ok o bn cfn c enc hp hc hr hu]
      exact .inl ⟨rfl, rfl⟩
  · rintro ⟨e, hpe⟩
    rw [encrypt_parse_exc o e hpe]

theorem C3_witness :
    ((encrypt OW).1.status = 200 ∧
       (encrypt OW).1.body = .msg (lit "Success, file was encrypted and stored in GCS.")
     ∨ (encrypt OW).1.status = 400 ∧ (∃ s, (encrypt OW).1.body = .err s)
     ∨ (encrypt OW).1.status = 500 ∧ (∃ s, (encrypt OW).1.body = .err s)) ∧
    ((encrypt OW).1.status = 400 ↔ ∃ e, parse_path OW.getArg = .exc e) ∧
    ((encrypt OW).1.status = 200 ↔ AllStagesOk OW) :=
  C3_response OW

/-- C4: the destination write is attempted at most once; in a successful
run it is attempted exactly once; any attempted write implies path parsing,
the configuration-and-secrets block (all three secret resolutions), the
source read and the encryption all succeeded before it; and on any
non-success outcome no destination object is persisted. -/
theorem C4_write_discipline (o : Oracle) :
    (writeAttempts (encrypt o).2).length ≤ 1 ∧
    ((encrypt o).1.status = 200 → (writeAttempts (encrypt o).2).length = 1) ∧
    (∀ b p d, Event.blobWrite b p d ∈ (encrypt o).2 →
      ∃ bn cfn c enc,
        parse_path o.getArg = .ok (bn, cfn) ∧
        (fetch_config_and_secrets o bn cfn).1 = .ok c ∧
        (read_and_encrypt_data o c.gcs_bucket c.file_path c.file_name
          c.gpg_public_key c.recipient_name).1 = .ok enc) ∧
    ((encrypt o).1.status ≠ 200 → ∀ b p, ¬ persistedAt o (encrypt o).2 b p) := by
  cases hp : parse_path o.getArg with
  | exc e =>
    rw [encrypt_parse_exc o e hp]
    refine ⟨by simp [writeAttempts], by simp, ?_, ?_⟩
    · intro b p d hmem
      simp at hmem
    · rintro _ b p ⟨payload, hmem, _⟩
      simp at hmem
  | ok pr =>
  obtain ⟨bn, cfn⟩ := pr
  have w1 := config_no_write o bn cfn
  cases hc : (fetch_config_and_secrets o bn cfn).1 with
  | exc e =>
    rw [encrypt_config_exc o bn cfn e hp hc]
    refine ⟨by simp [w1], by simp, ?_, ?_⟩
    · intro b p d hmem
      exact absurd hmem (not_write_mem_of_writeAttempts_nil _ w1 b p d)
    · rintro _ b p ⟨payload, hmem, _⟩
      exact absurd hmem (not_write_mem_of_writeAttempts_nil _ w1 b p payload)
  | ok c =>
  have w2 := read_no_write o c.gcs_bucket c.file_path c.file_name
    c.gpg_public_key c.recipient_name
  cases hr : (read_and_encrypt_data o c.gcs_bucket c.file_path c.file_name
      c.gpg_public_key c.recipient_name).1 with
  | exc e =>
    rw [encrypt_read_exc o bn cfn c e hp hc hr]
    refine ⟨by simp [writeAttempts_append, w1, w2], by simp, ?_, ?_⟩
    · intro b p d hmem
      rcases List.mem_append.1 hmem with hm | hm
      · exact absurd hm (not_write_mem_of_writeAttempts_nil _ w1 b p d)
      · exact absurd hm (not_write_mem_of_writeAttempts_nil _ w2 b p d)
    · rintro _ b p ⟨payload, hmem, _⟩
      rcases List.mem_append.1 hmem with hm | hm
      · exact absurd hm (not_write_mem_of_writeAttempts_nil _ w1 b p payload)
      · exact absurd hm (not_write_mem_of_writeAttempts_nil _ w2 b p payload)
  | ok enc =>
  cases hu : (upload_encrypted_data o c.gcs_bucket enc
      c.encrypted_file_path c.file_name).1 with
  | exc e =>
    rw [encrypt_upload_exc o bn cfn c enc e hp hc hr hu]
    have w3 := upload_write_le o c.gcs_bucket enc c.encrypted_file_path c.file_name
    refine ⟨?_, by simp, ?_, ?_⟩
    · simp only [writeAttempts_append, w1, w2, List.nil_append, List.length_append]
      simpa using w3
    · intro b p d hmem
      exact ⟨bn, cfn, c, enc, rfl, hc, hr⟩
    · rintro _ b p ⟨payload, hmem, hok⟩
      rcases List.mem_append.1 hmem with hm | hm
      · rcases List.mem_append.1 hm with hm2 | hm2
        · exact absurd hm2 (not_write_mem_of_writeAttempts_nil _ w1 b p payload)
        · exact absurd hm2 (not_write_mem_of_writeAttempts_nil _ w2 b p payload)
      · rcases upload_exc_inv o c.gcs_bucket enc c.encrypted_file_path c.file_name e hu
          with hnil | ⟨p2, hw, hup⟩
        · rw [hnil] at hm
          simp at hm
        · rw [hup] at hm
          simp at hm
          obtain ⟨hb, hp2, hpl⟩ := hm
          subst hb
          subst hp2
          subst hpl
          rw [hw] at hok
          exact Res.noConfusion hok
  | ok u =>
    rw [encrypt_all_ok o bn cfn c enc hp hc hr hu]
    obtain ⟨efps, fns, hefp, hfn, hw, hup⟩ :=
      upload_ok_inv o c.gcs_bucket enc c.encrypted_file_path c.file_name hu
    have wtr : writeAttempts ((fetch_config_and_secrets o bn cfn).2 ++
        ((read_and_encrypt_data o c.gcs_bucket c.file_path c.file_name
          c.gpg_public_key c.recipient_name).2 ++
         (upload_encrypted_data o c.gcs_bucket enc c.encrypted_file_path c.file_name).2))
        = [Event.blobWrite c.gcs_bucket (efps ++ fns ++ lit ".asc") enc.data] := by
      rw [writeAttempts_append, writeAttempts_append, w1, w2, hup]
      rfl
    refine ⟨?_, fun _ => ?_, ?_, fun hne => absurd rfl hne⟩
    · simp [wtr]
    · simp [wtr]
    · intro b p d hmem
      exact ⟨bn, cfn, c, enc, rfl, hc, hr⟩

theorem C4_witness :
    (writeAttempts (encrypt OW).2).length ≤ 1 ∧
    ((encrypt OW).1.status = 200 → (writeAttempts (encrypt OW).2).length = 1) ∧
    (∀ b p d, Event.blobWrite b p d ∈ (encrypt OW).2 →
      ∃ bn cfn c enc,
        parse_path OW.getArg = .ok (bn, cfn) ∧
        (fetch_config_and_secrets OW bn cfn).1 = .ok c ∧
        (read_and_encrypt_data OW c.gcs_bucket c.file_path c.file_name
          c.gpg_public_key c.recipient_name).1 = .ok enc) ∧
    ((encrypt OW).1.status ≠ 200 → ∀ b p, ¬ persistedAt OW (encrypt OW).2 b p) :=
  C4_write_discipline OW

/-- C2: in every successful run, the resolved value of the configuration
field `gcs_bucket` names the working container; the source read happens in
that container at `file_path ++ file_name`, and the single destination
write happens in that same container at exactly
`encrypted_file_path ++ file_name ++ ".asc"`. -/
theorem C2_destination (o : Oracle) (h200 : (encrypt o).1.status = 200) :
    ∃ bn cfn c content conf bId fns fps efps payload,
      parse_path o.getArg = .ok (bn, cfn) ∧
      (fetch_config_and_secrets o bn cfn).1 = .ok c ∧
      o.confFetch bn cfn = .ok content ∧
      o.jsonLoads content = .ok conf ∧
      conf.lookup (lit "gcs_bucket") = some bId ∧
      o.secret (secret_name bId) = .ok c.gcs_bucket ∧
      c.file_name = .jstr fns ∧ c.file_path = .jstr fps ∧
      c.encrypted_file_path = .jstr efps ∧
      Event.blobRead c.gcs_bucket (fps ++ fns) ∈ (encrypt o).2 ∧
      writeAttempts (encrypt o).2
        = [Event.blobWrite c.gcs_bucket (efps ++ fns ++ lit ".asc") payload] := by
  obtain ⟨bn, cfn, c, enc, hp, hc, hr, hu, henc⟩ := encrypt_200_inv o h200
  obtain ⟨content, conf, kId, bId, rId, l1, l2, l3, l4, l5, l6, l7, l8, l9, l10, l11, htr1⟩ :=
    config_ok_inv o bn cfn c hc
  obtain ⟨fps, fns, data, hfp, hfn, hread, himp, hgpg, hok, htr2⟩ :=
    read_ok_inv o c.gcs_bucket c.file_path c.file_name
      c.gpg_public_key c.recipient_name enc hr
  obtain ⟨efps, fns2, hefp, hfn2, hw, htr3⟩ :=
    upload_ok_inv o c.gcs_bucket enc c.encrypted_file_path c.file_name hu
  rw [hfn] at hfn2
  injection hfn2 with hfns
  subst hfns
  have w1 := config_no_write o bn cfn
  have w2 := read_no_write o c.gcs_bucket c.file_path c.file_name
    c.gpg_public_key c.recipient_name
  refine ⟨bn, cfn, c, content, conf, bId, fns, fps, efps, enc.data,
    hp, hc, l1, l2, l5, l6, hfn, hfp, hefp, ?_, ?_⟩
  · rw [henc]
    simp [htr2]
  · rw [henc]
    have wtr : writeAttempts ((fetch_config_and_secrets o bn cfn).2 ++
        ((read_and_encrypt_data o c.gcs_bucket c.file_path c.file_name
          c.gpg_public_key c.recipient_name).2 ++
         (upload_encrypted_data o c.gcs_bucket enc c.encrypted_file_path c.file_name).2))
        = [Event.blobWrite c.gcs_bucket (efps ++ fns ++ lit ".asc") enc.data] := by
      rw [writeAttempts_append, writeAttempts_append, w1, w2, htr3]
      rfl
    simp [wtr]

theorem C2_witness :
    ∃ bn cfn c content conf bId fns fps efps payload,
      parse_path OW.getArg = .ok (bn, cfn) ∧
      (fetch_config_and_secrets OW bn cfn).1 = .ok c ∧
      OW.confFetch bn cfn = .ok content ∧
      OW.jsonLoads content = .ok conf ∧
      conf.lookup (lit "gcs_bucket") = some bId ∧
      OW.secret (secret_name bId) = .ok c.gcs_bucket ∧
      c.file_name = .jstr fns ∧ c.file_path = .jstr fps ∧
      c.encrypted_file_path = .jstr efps ∧
      Event.blobRead c.gcs_bucket (fps ++ fns) ∈ (encrypt OW).2 ∧
      writeAttempts (encrypt OW).2
        = [Event.blobWrite c.gcs_bucket (efps ++ fns ++ lit ".asc") payload] :=
  C2_destination OW (by decide)

/-- C8: in every successful run the secret resolver is consulted exactly
three times, in the fixed order key material (`gpg_public_key`), container
id (`gcs_bucket`), recipient id (`recipient_name`), each exactly once. -/
theorem C8_secret_order (o : Oracle) (h200 : (encrypt o).1.status = 200) :
    ∃ bn cfn content conf kId bId rId,
      parse_path o.getArg = .ok (bn, cfn) ∧
      o.confFetch bn cfn = .ok content ∧
      o.jsonLoads content = .ok conf ∧
      conf.lookup (lit "gpg_public_key") = some kId ∧
      conf.lookup (lit "gcs_bucket") = some bId ∧
      conf.lookup (lit "recipient_name") = some rId ∧
      secretCalls (encrypt o).2
        = [.secretFetch (secret_name kId), .secretFetch (secret_name bId),
           .secretFetch (secret_name rId)] := by
  obtain ⟨bn, cfn, c, enc, hp, hc, hr, hu, henc⟩ := encrypt_200_inv o h200
  obtain ⟨content, conf, kId, bId, rId, l1, l2, l3, l4, l5, l6, l7, l8, l9, l10, l11, htr1⟩ :=
    config_ok_inv o bn cfn c hc
  obtain ⟨fps, fns, data, hfp, hfn, hread, himp, hgpg, hok, htr2⟩ :=
    read_ok_inv o c.gcs_bucket c.file_path c.file_name
      c.gpg_public_key c.recipient_name enc hr
  obtain ⟨efps, fns2, hefp, hfn2, hw, htr3⟩ :=
    upload_ok_inv o c.gcs_bucket enc c.encrypted_file_path c.file_name hu
  refine ⟨bn, cfn, content, conf, kId, bId, rId, hp, l1, l2, l3, l5, l7, ?_⟩
  rw [henc]
  simp only []
  rw [secretCalls_append, secretCalls_append, htr1, htr2, htr3]
  simp [secretCalls, List.filter]

theorem C8_witness :
    ∃ bn cfn content conf kId bId rId,
      parse_path OW.getArg = .ok (bn, cfn) ∧
      OW.confFetch bn cfn = .ok content ∧
      OW.jsonLoads content = .ok conf ∧
      conf.lookup (lit "gpg_public_key") = some kId ∧
      conf.lookup (lit "gcs_bucket") = some bId ∧
      conf.lookup (lit "recipient_name") = some rId ∧
      secretCalls (encrypt OW).2
        = [.secretFetch (secret_name kId), .secretFetch (secret_name bId),
           .secretFetch (secret_name rId)] :=
  C8_secret_order OW (by decide)

/-- C5: once the source has been read, the encryption stage raises exactly
when key import raises or the engine reports failure (success flag false);
an import failure propagates its exception text, an engine failure
propagates the engine diagnostic (`stderr`) inside the 500 error body, and
in either case no write is attempted. -/
theorem C5_encryption_stage (o : Oracle) (bn cfn : PyStr) (c : ConfigVals)
    (path data : PyStr)
    (hp : parse_path o.getArg = .ok (bn, cfn))
    (hc : (fetch_config_and_secrets o bn cfn).1 = .ok c)
    (hadd : pyAdd c.file_path c.file_name = .ok path)
    (hread : o.blobRead c.gcs_bucket path = .ok data) :
    ((∃ e, (read_and_encrypt_data o c.gcs_bucket c.file_path c.file_name
        c.gpg_public_key c.recipient_name).1 = .exc e)
      ↔ ((∃ e, o.gpgImport c.gpg_public_key = .exc e)
          ∨ (o.gpgEncrypt c.gpg_public_key data c.recipient_name).ok = false)) ∧
    (∀ e, o.gpgImport c.gpg_public_key = .exc e →
      (encrypt o).1 = ⟨500, .err (lit "Encryption failed: " ++ e)⟩ ∧
      writeAttempts (encrypt o).2 = []) ∧
    (o.gpgImport c.gpg_public_key = .ok () →
      (o.gpgEncrypt c.gpg_public_key data c.recipient_name).ok = false →
      (encrypt o).1 = ⟨500, .err (lit "Encryption failed: " ++ (lit "Encryption failed: "
        ++ (o.gpgEncrypt c.gpg_public_key data c.recipient_name).stderr))⟩ ∧
      writeAttempts (encrypt o).2 = []) := by
  refine ⟨⟨?_, ?_⟩, ?_, ?_⟩
  · rintro ⟨e, hexc⟩
    cases him : o.gpgImport c.gpg_public_key with
    | exc e2 => exact .inl ⟨e2, rfl⟩
    | ok u =>
      by_cases hok : (o.gpgEncrypt c.gpg_public_key data c.recipient_name).ok = true
      · have hro := read_engine_ok o c.gcs_bucket c.file_path c.file_name
          c.gpg_public_key c.recipient_name path data hadd hread him hok
        rw [hro] at hexc
        exact absurd hexc (by simp)
      · exact .inr (by simpa using hok)
  · intro hfail
    rcases hfail with ⟨e, him⟩ | hokf
    · have hri := read_import_exc o c.gcs_bucket c.file_path c.file_name
        c.gpg_public_key c.recipient_name path data e hadd hread him
      exact ⟨e, by rw [hri]⟩
    · cases him : o.gpgImport c.gpg_public_key with
      | exc e2 =>
        have hri := read_import_exc o c.gcs_bucket c.file_path c.file_name
          c.gpg_public_key c.recipient_name path data e2 hadd hread him
        exact ⟨e2, by rw [hri]⟩
      | ok u =>
        have hrf := read_engine_fail o c.gcs_bucket c.file_path c.file_name
          c.gpg_public_key c.recipient_name path data hadd hread him hokf
        exact ⟨_, by rw [hrf]⟩
  · intro e him
    have hri := read_import_exc o c.gcs_bucket c.file_path c.file_name
      c.gpg_public_key c.recipient_name path data e hadd hread him
    have hr1 : (read_and_encrypt_data o c.gcs_bucket c.file_path c.file_name
        c.gpg_public_key c.recipient_name).1 = .exc e := by rw [hri]
    have he := encrypt_read_exc o bn cfn c e hp hc hr1
    constructor
    · rw [he]
    · rw [he]
      simp [writeAttempts_append, config_no_write, read_no_write]
  · intro him hokf
    have hrf := read_engine_fail o c.gcs_bucket c.file_path c.file_name
      c.gpg_public_key c.recipient_name path data hadd hread him hokf
    have hr1 : (read_and_encrypt_data o c.gcs_bucket c.file_path c.file_name
        c.gpg_public_key c.recipient_name).1
        = .exc (lit "Encryption failed: "
            ++ (o.gpgEncrypt c.gpg_public_key data c.recipient_name).stderr) := by
      rw [hrf]
    have he := encrypt_read_exc o bn cfn c _ hp hc hr1
    constructor
    · rw [he]
    · rw [he]
      simp [writeAttempts_append, config_no_write, read_no_write]

theorem C5_witness :
    ((∃ e, (read_and_encrypt_data OEncFail cW.gcs_bucket cW.file_path cW.file_name
        cW.gpg_public_key cW.recipient_name).1 = .exc e)
      ↔ ((∃ e, OEncFail.gpgImport cW.gpg_public_key = .exc e)
          ∨ (OEncFail.gpgEncrypt cW.gpg_public_key (lit "DATA") cW.recipient_name).ok
              = false)) ∧
    (∀ e, OEncFail.gpgImport cW.gpg_public_key = .exc e →
      (encrypt OEncFail).1 = ⟨500, .err (lit "Encryption failed: " ++ e)⟩ ∧
      writeAttempts (encrypt OEncFail).2 = []) ∧
    (OEncFail.gpgImport cW.gpg_public_key = .ok () →
      (OEncFail.gpgEncrypt cW.gpg_public_key (lit "DATA") cW.recipient_name).ok = false →
      (encrypt OEncFail).1 = ⟨500, .err (lit "Encryption failed: "
        ++ (lit "Encryption failed: "
        ++ (OEncFail.gpgEncrypt cW.gpg_public_key (lit "DATA") cW.recipient_name).stderr))⟩ ∧
      writeAttempts (encrypt OEncFail).2 = []) :=
  C5_encryption_stage OEncFail (lit "cfgbucket") (lit "app/conf.json") cW
    (lit "in/report.csv") (lit "DATA") (by decide) (by decide) (by decide) (by decide)

/-- C7: when the source object is absent (the read raises), the endpoint
answers 500 with an error body carrying the transfer failure text (wrapped
in the orchestrator prefix), and no write is attempted. -/
theorem C7_missing_source (o : Oracle) (bn cfn : PyStr) (c : ConfigVals) (path m : PyStr)
    (hp : parse_path o.getArg = .ok (bn, cfn))
    (hc : (fetch_config_and_secrets o bn cfn).1 = .ok c)
    (hadd : pyAdd c.file_path c.file_name = .ok path)
    (hread : o.blobRead c.gcs_bucket path = .exc m) :
    (encrypt o).1 = ⟨500, .err (lit "Encryption failed: " ++ m)⟩ ∧
    writeAttempts (encrypt o).2 = [] := by
  have hrb := read_blob_exc o c.gcs_bucket c.file_path c.file_name
    c.gpg_public_key c.recipient_name path m hadd hread
  have hr1 : (read_and_encrypt_data o c.gcs_bucket c.file_path c.file_name
      c.gpg_public_key c.recipient_name).1 = .exc m := by rw [hrb]
  have he := encrypt_read_exc o bn cfn c m hp hc hr1
  constructor
  · rw [he]
  · rw [he]
    simp [writeAttempts_append, config_no_write, read_no_write]

theorem C7_witness :
    (encrypt OReadFail).1 = ⟨500, .err (lit "Encryption failed: "
      ++ lit "404 source object not found")⟩ ∧
    writeAttempts (encrypt OReadFail).2 = [] :=
  C7_missing_source OReadFail (lit "cfgbucket") (lit "app/conf.json") cW
    (lit "in/report.csv") (lit "404 source object not found")
    (by decide) (by decide) (by decide) (by decide)

/-- C6 (counterexample): a configuration object that has all six required
fields but a null `file_name` passes the configuration-and-secrets block
successfully (the claim requires it to fail there); the pipeline instead
fails later, in the read stage, with a `TypeError` surfaced as
`Encryption failed`, not as a configuration error. -/
theorem C6_counterexample :
    confJN.lookup (lit "file_name") = some JVal.jnull ∧
    (fetch_config_and_secrets ONull (lit "cfgbucket") (lit "app/conf.json")).1
      = .ok ⟨lit "PUBKEY", lit "data-bucket", lit "alice", JVal.jnull,
             .jstr (lit "in/"), .jstr (lit "out/")⟩ ∧
    (encrypt ONull).1 = ⟨500, .err (lit "Encryption failed: "
      ++ lit "TypeError: can only concatenate str to str")⟩ := by
  decide

/-- C6 (amended): configuration loading fails (with a 500 response) for
every configuration object missing any of the six required fields; a null
value is not rejected by loading itself (it flows onward and fails at a
later stage); and for every configuration with all six fields present whose
three secret resolutions succeed, loading succeeds with the three file
fields and the three resolved secrets carried through unchanged. -/
theorem C6_config_load :
    (∀ (o : Oracle) (bn cfn content : PyStr) (conf : Json),
      o.confFetch bn cfn = .ok content →
      o.jsonLoads content = .ok conf →
      (conf.lookup (lit "gpg_public_key") = none ∨
       conf.lookup (lit "gcs_bucket") = none ∨
       conf.lookup (lit "recipient_name") = none ∨
       conf.lookup (lit "file_name") = none ∨
       conf.lookup (lit "file_path") = none ∨
       conf.lookup (lit "encrypted_file_path") = none) →
      ∃ e, (fetch_config_and_secrets o bn cfn).1 = .exc e) ∧
    (∀ (o : Oracle) (bn cfn e : PyStr),
      parse_path o.getArg = .ok (bn, cfn) →
      (fetch_config_and_secrets o bn cfn).1 = .exc e →
      (encrypt o).1.status = 500) ∧
    (∀ (o : Oracle) (bn cfn content : PyStr) (conf : Json) (kId bId rId : JVal)
        (k b r : PyStr) (fnv fpv efpv : JVal),
      o.confFetch bn cfn = .ok content →
      o.jsonLoads content = .ok conf →
      conf.lookup (lit "gpg_public_key") = some kId →
      o.secret (secret_name kId) = .ok k →
      conf.lookup (lit "gcs_bucket") = some bId →
      o.secret (secret_name bId) = .ok b →
      conf.lookup (lit "recipient_name") = some rId →
      o.secret (secret_name rId) = .ok r →
      conf.lookup (lit "file_name") = some fnv →
      conf.lookup (lit "file_path") = some fpv →
      conf.lookup (lit "encrypted_file_path") = some efpv →
      (fetch_config_and_secrets o bn cfn).1 = .ok ⟨k, b, r, fnv, fpv, efpv⟩) := by
  refine ⟨config_missing_field, ?_, config_all_present⟩
  intro o bn cfn e hp hc
  rw [encrypt_config_exc o bn cfn e hp hc]

theorem C6_witness :
    (∃ e, (fetch_config_and_secrets ONoField (lit "cfgbucket") (lit "app/conf.json")).1
        = .exc e) ∧
    (encrypt ONoField).1.status = 500 ∧
    (fetch_config_and_secrets OW (lit "cfgbucket") (lit "app/conf.json")).1
      = .ok ⟨lit "PUBKEY", lit "data-bucket", lit "alice",
             .jstr (lit "report.csv"), .jstr (lit "in/"), .jstr (lit "out/")⟩ := by
  refine ⟨?_, ?_, ?_⟩
  · exact C6_config_load.1 ONoField (lit "cfgbucket") (lit "app/conf.json")
      (lit "CONF") confJM (by decide) (by decide) (.inl (by decide))
  · exact C6_config_load.2.1 ONoField (lit "cfgbucket") (lit "app/conf.json")
      (lit "KeyError: " ++ lit "gpg_public_key") (by decide) (by decide)
  · exact C6_config_load.2.2 OW (lit "cfgbucket") (lit "app/conf.json")
      (lit "CONF") confJW (.jstr (lit "kid")) (.jstr (lit "bid")) (.jstr (lit "rid"))
      (lit "PUBKEY") (lit "data-bucket") (lit "alice")
      (.jstr (lit "report.csv")) (.jstr (lit "in/")) (.jstr (lit "out/"))
      (by decide) (by decide) (by decide) (by decide) (by decide) (by decide)
      (by decide) (by decide) (by decide) (by decide) (by decide)

end EncryptPy





